import Mathlib

/-!
Verification of the request-handling and validation pipeline of the
`mcp-server-apple-events` repository (TypeScript sources under `src/`):
the reminder tool handlers, the shared formatting helpers, and the
centralized error-handling wrapper.  Parts of the repository that are
referenced by the handlers but whose source files are not present
(`validation/schemas.ts`, `utils/reminderRepository.ts`,
`utils/helpers.ts`, `utils/binaryValidator.ts`, `utils/cliExecutor.ts`)
are modelled from the specification and marked as such.
-/

/-! ## Basic string machinery (JS semantics helpers) -/

/-- A string occurs inside another (substring containment on the character list). -/
abbrev containsText (hay needle : String) : Prop := needle.data <:+: hay.data

/-- JS truthiness of an optional string value: defined and non-empty. -/
def truthyOpt : Option String → Bool
  | some s => if s = "" then false else true
  | none => false

/-- JS `Array.prototype.join('\n')` on a list of lines. -/
def joinLines : List String → String
  | [] => ""
  | [line] => line
  | line :: rest => line ++ "\n" ++ joinLines rest

/-! ## Process environment (from `utils/errorHandling.ts`) -/

/-- The two environment variables consulted by `createErrorMessage`. -/
structure ProcessEnv where
  nodeEnv : Option String
  debug : Option String
deriving DecidableEq

/-- `process.env.NODE_ENV === 'development' || process.env.DEBUG` (as a boolean). -/
def ProcessEnv.isDev (env : ProcessEnv) : Bool :=
  env.nodeEnv == some "development" || truthyOpt env.debug

/-! ## The error taxonomy (spec §7; `ValidationError` from `validation/schemas.ts`) -/

/-- A JavaScript thrown value, classified by the error classes of the system.
All constructors except `nonErrorThrown` model subclasses of `Error`. -/
inductive JsError where
  | validationError (message : String)
  | notFoundError (message : String)
  | untrustedBinaryError (message : String)
  | timeoutError (message : String)
  | helperExecutionError (message : String)
  | jsError (message : String)
  | nonErrorThrown
deriving DecidableEq

/-- `error instanceof Error`. -/
def JsError.isInstanceOfError : JsError → Bool
  | .nonErrorThrown => false
  | _ => true

/-- The `.message` property of the underlying `Error` object. -/
def JsError.instanceMessage : JsError → String
  | .validationError m => m
  | .notFoundError m => m
  | .untrustedBinaryError m => m
  | .timeoutError m => m
  | .helperExecutionError m => m
  | .jsError m => m
  | .nonErrorThrown => ""

/-- `error instanceof ValidationError`. -/
def JsError.isValidation : JsError → Bool
  | .validationError _ => true
  | _ => false

/-! ## `utils/errorHandling.ts` -/

/-- One `{type: 'text', text}` content item of a `CallToolResult`. -/
structure TextItem where
  type : String
  text : String
deriving DecidableEq

/-- The MCP `CallToolResult` envelope. -/
structure CallToolResult where
  content : List TextItem
  isError : Bool
deriving DecidableEq

/-- `createErrorMessage` from `utils/errorHandling.ts`: detailed message for
validation errors and in development mode, generic message otherwise. -/
def createErrorMessage (operation : String) (env : ProcessEnv) (error : JsError) : String :=
  let message := if error.isInstanceOfError then error.instanceMessage else "System error occurred"
  let isDev := env.isDev
  if error.isValidation then message
  else if isDev then "Failed to " ++ operation ++ ": " ++ message
  else "Failed to " ++ operation ++ ": System error occurred"

/-- `handleAsyncOperation` from `utils/errorHandling.ts`.  The async operation
either resolves with a markdown string or throws a `JsError`; either way a
`CallToolResult` is produced (the `try`/`catch` swallows every exception). -/
def handleAsyncOperation (operation : Except JsError String) (operationName : String)
    (env : ProcessEnv) : CallToolResult :=
  match operation with
  | .ok result => { content := [{ type := "text", text := result }], isError := false }
  | .error error =>
      { content := [{ type := "text", text := createErrorMessage operationName env error }],
        isError := true }

/-- First text content of a result (all results built here have exactly one). -/
def firstText (r : CallToolResult) : String :=
  (r.content.headD { type := "text", text := "" }).text

/-! ## Claim C1 -/

/-- C1: `handleAsyncOperation` converts every outcome of the wrapped operation into
a resolved `CallToolResult` with a single text content item: on success the
operation's formatted string with `isError = false`, on any thrown error the
rendered error message with `isError = true`; success is reported exactly when
the operation succeeded. -/
theorem handleAsyncOperation_uniform (op : Except JsError String) (name : String)
    (env : ProcessEnv) :
    (handleAsyncOperation op name env).content.length = 1 ∧
    (∀ s, op = .ok s →
      handleAsyncOperation op name env =
        { content := [{ type := "text", text := s }], isError := false }) ∧
    (∀ e, op = .error e →
      handleAsyncOperation op name env =
        { content := [{ type := "text", text := createErrorMessage name env e }],
          isError := true }) ∧
    ((handleAsyncOperation op name env).isError = false ↔ ∃ s, op = .ok s) := by
  cases op <;> simp [handleAsyncOperation]

/-- Witness for C1 at concrete inputs: a thrown error and a success value. -/
theorem handleAsyncOperation_uniform_witness :
    handleAsyncOperation (.error (.jsError "boom")) "create reminder" ⟨none, none⟩ =
      { content := [{ type := "text",
                      text := createErrorMessage "create reminder" ⟨none, none⟩ (.jsError "boom") }],
        isError := true } :=
  (handleAsyncOperation_uniform (.error (.jsError "boom")) "create reminder"
    ⟨none, none⟩).2.2.1 (.jsError "boom") rfl

/-! ## Claim C2 -/

/-- C2 counterexample: a plain `Error` whose message is the string
`System error occurred`, rendered in production (no `NODE_ENV`, no `DEBUG`).
The claim says that for non-validation errors in production the rendered text
does not include the underlying error's message, yet here it does. -/
theorem createErrorMessage_leak_counterexample :
    (ProcessEnv.isDev ⟨none, none⟩ = false) ∧
    JsError.isValidation (.jsError "System error occurred") = false ∧
    containsText
      (createErrorMessage "read reminders" ⟨none, none⟩ (.jsError "System error occurred"))
      "System error occurred" := by
  refine ⟨rfl, rfl, ?_⟩
  decide

/-- C2 (amended): the rendered text is the error's own detailed message when the
error is a `ValidationError`; for other errors it embeds the detailed message in
development mode, and in production it is the fixed generic string
`Failed to <operation>: System error occurred`, built independently of the
underlying error (so the underlying message can occur in it only by textual
coincidence). -/
theorem createErrorMessage_detail_policy (op : String) (env : ProcessEnv) (e : JsError) :
    (e.isValidation = true → createErrorMessage op env e = e.instanceMessage) ∧
    (e.isValidation = false → env.isDev = true →
      createErrorMessage op env e =
        "Failed to " ++ op ++ ": " ++
          (if e.isInstanceOfError then e.instanceMessage else "System error occurred") ∧
      containsText (createErrorMessage op env e)
        (if e.isInstanceOfError then e.instanceMessage else "System error occurred")) ∧
    (e.isValidation = false → env.isDev = false →
      createErrorMessage op env e = "Failed to " ++ op ++ ": System error occurred") := by
  refine ⟨?_, ?_, ?_⟩
  · intro hv
    cases e <;> simp_all [createErrorMessage, JsError.isValidation, JsError.isInstanceOfError,
      JsError.instanceMessage]
  · intro hv hd
    constructor
    · simp [createErrorMessage, hv, hd]
    · simp only [createErrorMessage, hv, hd, Bool.false_eq_true, if_false, if_true]
      exact ⟨("Failed to " ++ op ++ ": ").data, [], by simp⟩
  · intro hv hd
    simp [createErrorMessage, hv, hd]

/-- Witness for C2 (amended) at concrete inputs covering all three branches. -/
theorem createErrorMessage_detail_policy_witness :
    createErrorMessage "create reminder" ⟨none, none⟩ (.validationError "title: Required") =
      "title: Required" ∧
    createErrorMessage "create reminder" ⟨some "development", none⟩ (.jsError "boom") =
      "Failed to create reminder: " ++
        (if (JsError.jsError "boom").isInstanceOfError
          then (JsError.jsError "boom").instanceMessage else "System error occurred") ∧
    createErrorMessage "create reminder" ⟨none, none⟩ (.jsError "boom") =
      "Failed to create reminder: System error occurred" :=
  ⟨(createErrorMessage_detail_policy "create reminder" ⟨none, none⟩
      (.validationError "title: Required")).1 rfl,
   ((createErrorMessage_detail_policy "create reminder" ⟨some "development", none⟩
      (.jsError "boom")).2.1 rfl rfl).1,
   (createErrorMessage_detail_policy "create reminder" ⟨none, none⟩
      (.jsError "boom")).2.2 rfl rfl⟩

/-! ## Domain records and tool arguments -/

/-- A reminder record as consumed by `formatReminderMarkdown` (all optional
fields are optional strings; `title` and `isCompleted` are required). -/
structure Reminder where
  title : String
  isCompleted : Bool
  list : Option String := none
  id : Option String := none
  notes : Option String := none
  dueDate : Option String := none
  url : Option String := none
deriving DecidableEq

/-- Raw arguments of a `reminders` tool call (`RemindersToolArgs`): every field
may be absent in the untyped payload. -/
structure RemindersToolArgs where
  action : Option String := none
  id : Option String := none
  title : Option String := none
  note : Option String := none
  url : Option String := none
  targetList : Option String := none
  completed : Option Bool := none
  dueDate : Option String := none
  filterList : Option String := none
  showCompleted : Option Bool := none
  search : Option String := none
  dueWithin : Option String := none
deriving DecidableEq

/-- The `{ action: _, ...rest }` destructuring of `extractAndValidateArgs`:
the `action` field is removed before validation. -/
def stripAction (args : RemindersToolArgs) : RemindersToolArgs :=
  { args with action := none }

/-! ## Validation schemas

Modelled from the spec: `validation/schemas.ts` is not among the given source
files.  Spec §4.1: `validate(schema, rawArguments)` fails with a
`ValidationError` naming the field when a required field is missing or a
format check (ISO-like date-time pattern) fails; per-operation schemas are
create (title required; notes, url, list, dueDate optional), update (id
required, all else optional), delete (id required), read (all optional). -/

/-- Modelled from the spec: the `ValidationError` message for a missing
required field names that field (§4.1, §8). -/
def requiredFieldMessage (field : String) : String :=
  "Invalid arguments: " ++ field ++ ": Required"

/-- Modelled from the spec: the `ValidationError` message for a field failing
the date-time format check names that field (§4.1). -/
def badFormatMessage (field : String) : String :=
  "Invalid arguments: " ++ field ++ ": Invalid date-time format"

/-- Character-pattern matcher for the ISO-like date check: `d` matches a digit,
every other pattern character matches itself. -/
def digitsPattern : List Char → List Char → Bool
  | [], [] => true
  | 'd' :: ps, c :: cs => c.isDigit && digitsPattern ps cs
  | p :: ps, c :: cs => (p == c) && digitsPattern ps cs
  | _, _ => false

/-- Modelled from the spec: an ISO-like date-time pattern check (§4.1), for
values such as `2025-11-18` or `2025-11-18 15:00:00`. -/
def isIsoLikeDate (s : String) : Bool :=
  digitsPattern "dddd-dd-dd".data s.data || digitsPattern "dddd-dd-dd dd:dd:dd".data s.data

/-- Validated arguments of the create operation. -/
structure ValidatedCreate where
  title : String
  note : Option String := none
  url : Option String := none
  targetList : Option String := none
  dueDate : Option String := none
deriving DecidableEq

/-- Validated arguments of the update operation. -/
structure ValidatedUpdate where
  id : String
  title : Option String := none
  note : Option String := none
  url : Option String := none
  completed : Option Bool := none
  targetList : Option String := none
  dueDate : Option String := none
deriving DecidableEq

/-- Validated arguments of the delete operation. -/
structure ValidatedDelete where
  id : String
deriving DecidableEq

/-- Validated arguments of the read operation.  The raw `id` field is accepted
but not part of the validated output (the handler comments that `id` may be
filtered out by schema validation). -/
structure ValidatedRead where
  filterList : Option String := none
  showCompleted : Option Bool := none
  search : Option String := none
  dueWithin : Option String := none
deriving DecidableEq

/-- Modelled from the spec: `CreateReminderSchema` — title required, a provided
`dueDate` must pass the date format check. -/
def CreateReminderSchema (input : RemindersToolArgs) : Except JsError ValidatedCreate :=
  match input.title with
  | none => .error (.validationError (requiredFieldMessage "title"))
  | some t =>
      match input.dueDate with
      | some d =>
          if isIsoLikeDate d then
            .ok { title := t, note := input.note, url := input.url,
                  targetList := input.targetList, dueDate := some d }
          else .error (.validationError (badFormatMessage "dueDate"))
      | none =>
          .ok { title := t, note := input.note, url := input.url,
                targetList := input.targetList, dueDate := none }

/-- Modelled from the spec: `UpdateReminderSchema` — id required, a provided
`dueDate` must pass the date format check. -/
def UpdateReminderSchema (input : RemindersToolArgs) : Except JsError ValidatedUpdate :=
  match input.id with
  | none => .error (.validationError (requiredFieldMessage "id"))
  | some i =>
      match input.dueDate with
      | some d =>
          if isIsoLikeDate d then
            .ok { id := i, title := input.title, note := input.note, url := input.url,
                  completed := input.completed, targetList := input.targetList,
                  dueDate := some d }
          else .error (.validationError (badFormatMessage "dueDate"))
      | none =>
          .ok { id := i, title := input.title, note := input.note, url := input.url,
                completed := input.completed, targetList := input.targetList,
                dueDate := none }

/-- Modelled from the spec: `DeleteReminderSchema` — id required. -/
def DeleteReminderSchema (input : RemindersToolArgs) : Except JsError ValidatedDelete :=
  match input.id with
  | none => .error (.validationError (requiredFieldMessage "id"))
  | some i => .ok { id := i }

/-- Modelled from the spec: `ReadRemindersSchema` — all fields optional; a
provided `dueWithin` bound must pass the date format check; the raw `id` is
not carried into the validated output. -/
def ReadRemindersSchema (input : RemindersToolArgs) : Except JsError ValidatedRead :=
  match input.dueWithin with
  | some d =>
      if isIsoLikeDate d then
        .ok { filterList := input.filterList, showCompleted := input.showCompleted,
              search := input.search, dueWithin := some d }
      else .error (.validationError (badFormatMessage "dueWithin"))
  | none =>
      .ok { filterList := input.filterList, showCompleted := input.showCompleted,
            search := input.search, dueWithin := none }

/-- Modelled from the spec: `validateInput` wraps a schema parse, surfacing
failures as `ValidationError` (§4.1); the schemas above already do so. -/
def validateInput {T : Type} (schema : RemindersToolArgs → Except JsError T)
    (input : RemindersToolArgs) : Except JsError T :=
  schema input

/-- `extractAndValidateArgs` from `tools/handlers/shared.ts`: remove the
`action` field and validate the remaining properties against the schema. -/
def extractAndValidateArgs {T : Type} (args : RemindersToolArgs)
    (schema : RemindersToolArgs → Except JsError T) : Except JsError T :=
  validateInput schema (stripAction args)

/-! ## Formatting helpers -/

/-- Modelled from the spec: `formatMultilineNotes` from `utils/helpers.ts` is
absent from the given sources; §4.5/§8 require formatting not to lossily
transform the notes string, so it is modelled as rendering the notes text
unchanged. -/
def formatMultilineNotes (notes : String) : String := notes

/-- `formatReminderMarkdown` from `tools/handlers/reminderHandlers.ts`:
a checkbox title line followed by one line per truthy optional field. -/
def formatReminderMarkdown (reminder : Reminder) : List String :=
  let lines : List String := []
  let checkbox := if reminder.isCompleted then "[x]" else "[ ]"
  let lines := lines ++ ["- " ++ checkbox ++ " " ++ reminder.title]
  let lines := if truthyOpt reminder.list
    then lines ++ ["  - List: " ++ reminder.list.getD ""] else lines
  let lines := if truthyOpt reminder.id
    then lines ++ ["  - ID: " ++ reminder.id.getD ""] else lines
  let lines := if truthyOpt reminder.notes
    then lines ++ ["  - Notes: " ++ formatMultilineNotes (reminder.notes.getD "")] else lines
  let lines := if truthyOpt reminder.dueDate
    then lines ++ ["  - Due: " ++ reminder.dueDate.getD ""] else lines
  let lines := if truthyOpt reminder.url
    then lines ++ ["  - URL: " ++ reminder.url.getD ""] else lines
  lines

/-- `formatListMarkdown` from `tools/handlers/shared.ts`: header with count,
then either the empty message or the formatted items. -/
def formatListMarkdown {α : Type} (title : String) (items : List α)
    (formatItem : α → List String) (emptyMessage : String) : String :=
  let lines : List String := ["### " ++ title ++ " (Total: " ++ toString items.length ++ ")", ""]
  let lines := if items.length = 0
    then lines ++ [emptyMessage]
    else lines ++ (items.map formatItem).flatten
  joinLines lines

/-- The two success actions accepted by `formatSuccessMessage`. -/
inductive SuccessAction where
  | created
  | updated
deriving DecidableEq, BEq

/-- `formatSuccessMessage` from `tools/handlers/shared.ts`. -/
def formatSuccessMessage (action : SuccessAction) (itemType title id : String) : String :=
  let actionText := match action with | .created => "created" | .updated => "updated"
  let pre :=
    if action == .updated && itemType == "list"
      then "Successfully updated " ++ itemType ++ " to"
      else "Successfully " ++ actionText ++ " " ++ itemType
  pre ++ " \"" ++ title ++ "\".\n- ID: " ++ id

/-- Options of `formatDeleteMessage` (all default to `true`). -/
structure DeleteOptions where
  useQuotes : Bool := true
  useIdPrefix : Bool := true
  usePeriod : Bool := true
  useColon : Bool := true
deriving DecidableEq

/-- `formatDeleteMessage` from `tools/handlers/shared.ts`. -/
def formatDeleteMessage (itemType identifier : String) (options : DeleteOptions) : String :=
  let formattedId := if options.useQuotes then "\"" ++ identifier ++ "\"" else identifier
  let idPart :=
    if options.useIdPrefix then
      let separator := if options.useColon then ": " else " "
      "with ID" ++ separator ++ formattedId
    else formattedId
  let period := if options.usePeriod then "." else ""
  "Successfully deleted " ++ itemType ++ " " ++ idPart ++ period

/-! ## Structural lemmas about the formatters -/

/-- The per-field line segment contributed by one optional field. -/
def fieldSeg (o : Option String) (render : String → String) : List String :=
  if truthyOpt o then [render (o.getD "")] else []

theorem append_if_push {α : Type} (c : Bool) (L X : List α) :
    (if c then L ++ X else L) = L ++ (if c then X else []) := by
  cases c <;> simp

/-- `formatReminderMarkdown` decomposed into its title line and one segment
per optional field, in source order. -/
theorem formatReminderMarkdown_eq (r : Reminder) :
    formatReminderMarkdown r =
      ["- " ++ (if r.isCompleted then "[x]" else "[ ]") ++ " " ++ r.title]
        ++ fieldSeg r.list (fun s => "  - List: " ++ s)
        ++ fieldSeg r.id (fun s => "  - ID: " ++ s)
        ++ fieldSeg r.notes (fun s => "  - Notes: " ++ formatMultilineNotes s)
        ++ fieldSeg r.dueDate (fun s => "  - Due: " ++ s)
        ++ fieldSeg r.url (fun s => "  - URL: " ++ s) := by
  simp only [formatReminderMarkdown, fieldSeg, append_if_push, List.append_assoc,
    List.nil_append]
  rcases r with ⟨t, cmp, lst, rid, nts, dd, u⟩
  rcases lst with _ | s1 <;> rcases rid with _ | s2 <;> rcases nts with _ | s3 <;>
    rcases dd with _ | s4 <;> rcases u with _ | s5 <;>
      simp [truthyOpt] <;> split_ifs <;> simp_all

theorem joinLines_cons (x : String) (ls : List String) (h : ls ≠ []) :
    joinLines (x :: ls) = x ++ "\n" ++ joinLines ls := by
  cases ls with
  | nil => exact absurd rfl h
  | cons y t => rfl

theorem infix_joinLines {l : String} {ls : List String} (h : l ∈ ls) :
    l.data <:+: (joinLines ls).data := by
  induction ls with
  | nil => simp at h
  | cons x t ih =>
    cases t with
    | nil =>
        rcases List.mem_singleton.mp h with rfl
        exact List.infix_refl _
    | cons y tt =>
        rw [joinLines_cons x (y :: tt) (by simp)]
        rcases List.mem_cons.mp h with rfl | hmem
        · exact ⟨[], ("\n" ++ joinLines (y :: tt)).data, by simp⟩
        · exact List.IsInfix.trans (ih hmem) ⟨(x ++ "\n").data, [], by simp⟩

/-- Character-list prefix test (structured so that it reduces on a literal
needle even when the haystack has an abstract tail). -/
def prefixChars : List Char → List Char → Bool
  | [], _ => true
  | _ :: _, [] => false
  | a :: as, b :: bs => a == b && prefixChars as bs

/-- A line starts with the given tag (computable prefix test). -/
def startsWithTag (tag l : String) : Bool := prefixChars tag.data l.data

/-- Some line of the list starts with the given tag. -/
def hasLineTagged (tag : String) (ls : List String) : Bool := ls.any (startsWithTag tag)

theorem truthyOpt_eq_true_iff (o : Option String) :
    truthyOpt o = true ↔ ∃ s, o = some s ∧ s ≠ "" := by
  cases o with
  | none => simp [truthyOpt]
  | some s => by_cases h : s = "" <;> simp [truthyOpt, h]

theorem any_fieldSeg (p : String → Bool) (o : Option String) (render : String → String) :
    (fieldSeg o render).any p = (truthyOpt o && p (render (o.getD ""))) := by
  cases o with
  | none => simp [fieldSeg, truthyOpt]
  | some s => by_cases h : s = "" <;> simp [fieldSeg, truthyOpt, h]

/-! ## Claim C7 -/

/-- C7: `formatListMarkdown` always renders a header line carrying the item
count `Total: n` with `n` the length of the list; on an empty list the body is
exactly the designated empty message; and the empty rendering flows through
`handleAsyncOperation` as a normal non-error result. -/
theorem formatListMarkdown_count_and_empty {α : Type} (title : String) (items : List α)
    (formatItem : α → List String) (emptyMessage : String) (name : String) (env : ProcessEnv) :
    (∃ rest, formatListMarkdown title items formatItem emptyMessage =
      "### " ++ title ++ " (Total: " ++ toString items.length ++ ")" ++ "\n" ++ rest) ∧
    (items = [] → formatListMarkdown title items formatItem emptyMessage =
      "### " ++ title ++ " (Total: 0)\n\n" ++ emptyMessage) ∧
    (handleAsyncOperation (.ok (formatListMarkdown title items formatItem emptyMessage))
      name env).isError = false := by
  refine ⟨?_, ?_, rfl⟩
  · by_cases hc : items.length = 0
    · simp only [formatListMarkdown, hc, if_true]
      exact ⟨"" ++ "\n" ++ emptyMessage, rfl⟩
    · simp only [formatListMarkdown, hc, if_false]
      exact ⟨joinLines ("" :: (items.map formatItem).flatten),
        joinLines_cons _ _ (by simp)⟩
  · intro h
    subst h
    apply String.ext
    simp [formatListMarkdown, joinLines]
    rfl

/-- Witness for C7 on a concrete empty list of reminders. -/
theorem formatListMarkdown_count_and_empty_witness :
    formatListMarkdown "Reminders" ([] : List Reminder) formatReminderMarkdown
        "No reminders found matching the criteria." =
      "### Reminders (Total: 0)\n\nNo reminders found matching the criteria." :=
  (formatListMarkdown_count_and_empty "Reminders" [] formatReminderMarkdown
    "No reminders found matching the criteria." "read reminders" ⟨none, none⟩).2.1 rfl

/-! ## Claim C8 -/

/-- C8 counterexample: a reminder whose `list` field is present but holds the
empty string.  The field is present, yet no `List:` line is emitted (the code
tests JS truthiness, not presence), contradicting the claim's `if and only if
that field is present`. -/
theorem formatReminder_empty_field_counterexample :
    (Reminder.list { title := "t", isCompleted := false, list := some "" }).isSome = true ∧
    hasLineTagged "  - List: "
      (formatReminderMarkdown { title := "t", isCompleted := false, list := some "" }) = false := by
  constructor
  · rfl
  · rfl

/-- C8 (amended): single-record formatting emits the line for each optional
field (`List:`, `ID:`, `Notes:`, `Due:`, `URL:`) if and only if that field is
present with a non-empty value (JS truthiness); fields that are absent or empty
produce no such line, and no placeholder is emitted. -/
theorem formatReminder_optional_lines (r : Reminder) :
    (hasLineTagged "  - List: " (formatReminderMarkdown r) = true ↔
      ∃ s, r.list = some s ∧ s ≠ "") ∧
    (hasLineTagged "  - ID: " (formatReminderMarkdown r) = true ↔
      ∃ s, r.id = some s ∧ s ≠ "") ∧
    (hasLineTagged "  - Notes: " (formatReminderMarkdown r) = true ↔
      ∃ s, r.notes = some s ∧ s ≠ "") ∧
    (hasLineTagged "  - Due: " (formatReminderMarkdown r) = true ↔
      ∃ s, r.dueDate = some s ∧ s ≠ "") ∧
    (hasLineTagged "  - URL: " (formatReminderMarkdown r) = true ↔
      ∃ s, r.url = some s ∧ s ≠ "") := by
  rw [formatReminderMarkdown_eq]
  refine ⟨?_, ?_, ?_, ?_, ?_⟩
  · have hhead : ∀ x y z : String, startsWithTag "  - List: " ("- " ++ x ++ y ++ z) = false :=
      fun _ _ _ => rfl
    have h1 : ∀ s, startsWithTag "  - List: " ("  - List: " ++ s) = true := fun _ => rfl
    have h2 : ∀ s, startsWithTag "  - List: " ("  - ID: " ++ s) = false := fun _ => rfl
    have h3 : ∀ s, startsWithTag "  - List: " ("  - Notes: " ++ s) = false := fun _ => rfl
    have h4 : ∀ s, startsWithTag "  - List: " ("  - Due: " ++ s) = false := fun _ => rfl
    have h5 : ∀ s, startsWithTag "  - List: " ("  - URL: " ++ s) = false := fun _ => rfl
    simp [hasLineTagged, any_fieldSeg, hhead, h1, h2, h3, h4, h5, truthyOpt_eq_true_iff]
  · have hhead : ∀ x y z : String, startsWithTag "  - ID: " ("- " ++ x ++ y ++ z) = false :=
      fun _ _ _ => rfl
    have h1 : ∀ s, startsWithTag "  - ID: " ("  - List: " ++ s) = false := fun _ => rfl
    have h2 : ∀ s, startsWithTag "  - ID: " ("  - ID: " ++ s) = true := fun _ => rfl
    have h3 : ∀ s, startsWithTag "  - ID: " ("  - Notes: " ++ s) = false := fun _ => rfl
    have h4 : ∀ s, startsWithTag "  - ID: " ("  - Due: " ++ s) = false := fun _ => rfl
    have h5 : ∀ s, startsWithTag "  - ID: " ("  - URL: " ++ s) = false := fun _ => rfl
    simp [hasLineTagged, any_fieldSeg, hhead, h1, h2, h3, h4, h5, truthyOpt_eq_true_iff]
  · have hhead : ∀ x y z : String, startsWithTag "  - Notes: " ("- " ++ x ++ y ++ z) = false :=
      fun _ _ _ => rfl
    have h1 : ∀ s, startsWithTag "  - Notes: " ("  - List: " ++ s) = false := fun _ => rfl
    have h2 : ∀ s, startsWithTag "  - Notes: " ("  - ID: " ++ s) = false := fun _ => rfl
    have h3 : ∀ s, startsWithTag "  - Notes: " ("  - Notes: " ++ s) = true := fun _ => rfl
    have h4 : ∀ s, startsWithTag "  - Notes: " ("  - Due: " ++ s) = false := fun _ => rfl
    have h5 : ∀ s, startsWithTag "  - Notes: " ("  - URL: " ++ s) = false := fun _ => rfl
    simp [hasLineTagged, any_fieldSeg, hhead, h1, h2, h3, h4, h5, truthyOpt_eq_true_iff]
  · have hhead : ∀ x y z : String, startsWithTag "  - Due: " ("- " ++ x ++ y ++ z) = false :=
      fun _ _ _ => rfl
    have h1 : ∀ s, startsWithTag "  - Due: " ("  - List: " ++ s) = false := fun _ => rfl
    have h2 : ∀ s, startsWithTag "  - Due: " ("  - ID: " ++ s) = false := fun _ => rfl
    have h3 : ∀ s, startsWithTag "  - Due: " ("  - Notes: " ++ s) = false := fun _ => rfl
    have h4 : ∀ s, startsWithTag "  - Due: " ("  - Due: " ++ s) = true := fun _ => rfl
    have h5 : ∀ s, startsWithTag "  - Due: " ("  - URL: " ++ s) = false := fun _ => rfl
    simp [hasLineTagged, any_fieldSeg, hhead, h1, h2, h3, h4, h5, truthyOpt_eq_true_iff]
  · have hhead : ∀ x y z : String, startsWithTag "  - URL: " ("- " ++ x ++ y ++ z) = false :=
      fun _ _ _ => rfl
    have h1 : ∀ s, startsWithTag "  - URL: " ("  - List: " ++ s) = false := fun _ => rfl
    have h2 : ∀ s, startsWithTag "  - URL: " ("  - ID: " ++ s) = false := fun _ => rfl
    have h3 : ∀ s, startsWithTag "  - URL: " ("  - Notes: " ++ s) = false := fun _ => rfl
    have h4 : ∀ s, startsWithTag "  - URL: " ("  - Due: " ++ s) = false := fun _ => rfl
    have h5 : ∀ s, startsWithTag "  - URL: " ("  - URL: " ++ s) = true := fun _ => rfl
    simp [hasLineTagged, any_fieldSeg, hhead, h1, h2, h3, h4, h5, truthyOpt_eq_true_iff]

/-! ## Claim C9 -/

theorem contains_line_value {ls : List String} (pre v : String) (hmem : (pre ++ v) ∈ ls) :
    containsText (joinLines ls) v :=
  List.IsInfix.trans ⟨pre.data, [], by simp⟩ (infix_joinLines hmem)

theorem containsText_empty (hay : String) : containsText hay "" := ⟨[], hay.data, rfl⟩

/-- C9: rendering a reminder whose optional fields are all present yields a text
in which the title, list, id, notes, due-date and url strings each occur
literally (no lossy transformation of the field values). -/
theorem formatReminder_roundtrip_contains (t a b c d e : String) (cmp : Bool) :
    containsText (joinLines (formatReminderMarkdown
      { title := t, isCompleted := cmp, list := some a, id := some b,
        notes := some c, dueDate := some d, url := some e })) t ∧
    containsText (joinLines (formatReminderMarkdown
      { title := t, isCompleted := cmp, list := some a, id := some b,
        notes := some c, dueDate := some d, url := some e })) a ∧
    containsText (joinLines (formatReminderMarkdown
      { title := t, isCompleted := cmp, list := some a, id := some b,
        notes := some c, dueDate := some d, url := some e })) b ∧
    containsText (joinLines (formatReminderMarkdown
      { title := t, isCompleted := cmp, list := some a, id := some b,
        notes := some c, dueDate := some d, url := some e })) c ∧
    containsText (joinLines (formatReminderMarkdown
      { title := t, isCompleted := cmp, list := some a, id := some b,
        notes := some c, dueDate := some d, url := some e })) d ∧
    containsText (joinLines (formatReminderMarkdown
      { title := t, isCompleted := cmp, list := some a, id := some b,
        notes := some c, dueDate := some d, url := some e })) e := by
  refine ⟨?_, ?_, ?_, ?_, ?_, ?_⟩
  · exact contains_line_value ("- " ++ (if cmp then "[x]" else "[ ]") ++ " ") t
      (by rw [formatReminderMarkdown_eq]; simp)
  · by_cases ha : a = ""
    · subst ha; exact containsText_empty _
    · exact contains_line_value "  - List: " a
        (by rw [formatReminderMarkdown_eq]; simp [fieldSeg, truthyOpt, ha])
  · by_cases hb : b = ""
    · subst hb; exact containsText_empty _
    · exact contains_line_value "  - ID: " b
        (by rw [formatReminderMarkdown_eq]; simp [fieldSeg, truthyOpt, hb])
  · by_cases hc : c = ""
    · subst hc; exact containsText_empty _
    · exact contains_line_value "  - Notes: " c
        (by rw [formatReminderMarkdown_eq]; simp [fieldSeg, truthyOpt, formatMultilineNotes, hc])
  · by_cases hd : d = ""
    · subst hd; exact containsText_empty _
    · exact contains_line_value "  - Due: " d
        (by rw [formatReminderMarkdown_eq]; simp [fieldSeg, truthyOpt, hd])
  · by_cases he : e = ""
    · subst he; exact containsText_empty _
    · exact contains_line_value "  - URL: " e
        (by rw [formatReminderMarkdown_eq]; simp [fieldSeg, truthyOpt, he])

/-! ## Reminder repository (modelled from the spec) -/

/-- Filters accepted by `findReminders`. -/
structure ReminderFilters where
  list : Option String := none
  showCompleted : Option Bool := none
  search : Option String := none
  dueWithin : Option String := none
deriving DecidableEq

/-- Lower-case character list of a string (for case-insensitive search). -/
def lowerChars (s : String) : List Char := s.data.map Char.toLower

/-- Substring test on character lists. -/
def containsChars (needle : List Char) : List Char → Bool
  | [] => prefixChars needle []
  | c :: t => prefixChars needle (c :: t) || containsChars needle t

/-- Modelled from the spec: case-insensitive substring match (§4.4). -/
def containsCI (hay needle : String) : Bool :=
  containsChars (lowerChars needle) (lowerChars hay)

/-- Lexicographic order test on character lists (ISO-like dates compare correctly). -/
def lexLeChars : List Char → List Char → Bool
  | [], _ => true
  | _ :: _, [] => false
  | a :: as, b :: bs => if a < b then true else if b < a then false else lexLeChars as bs

/-- Modelled from the spec: the filter predicate of `findReminders` (§4.4) —
containing-list name, completion status (completed shown only on request),
case-insensitive free-text search over title/notes, due-date window bound. -/
def matchesFilters (f : ReminderFilters) (r : Reminder) : Bool :=
  (match f.list with | some l => r.list == some l | none => true) &&
  (match f.showCompleted with | some b => b || !r.isCompleted | none => !r.isCompleted) &&
  (match f.search with
    | some s => containsCI r.title s || containsCI (r.notes.getD "") s
    | none => true) &&
  (match f.dueWithin with
    | some bound =>
        match r.dueDate with
        | some d => lexLeChars (d.data.take 10) (bound.data.take 10)
        | none => false
    | none => true)

/-- Modelled from the spec: `findReminderById` of `utils/reminderRepository.ts`
throws `NotFoundError` when no reminder carries the requested id (§4.4). -/
def findReminderById (store : List Reminder) (id : String) : Except JsError Reminder :=
  match store.find? (fun r => r.id == some id) with
  | some r => .ok r
  | none => .error (.notFoundError ("Reminder not found with ID: " ++ id))

/-- Modelled from the spec: `findReminders` returns the (possibly empty) list of
matching reminders — an empty match is not an error (§4.4). -/
def findReminders (store : List Reminder) (f : ReminderFilters) :
    Except JsError (List Reminder) :=
  .ok (store.filter (matchesFilters f))

/-! ## Reminder handlers (`tools/handlers/reminderHandlers.ts`) -/

/-- Parameters passed by `handleCreateReminder` to `reminderRepository.createReminder`. -/
structure CreateReminderParams where
  title : String
  notes : Option String := none
  url : Option String := none
  list : Option String := none
  dueDate : Option String := none
deriving DecidableEq

/-- The async body of `handleCreateReminder` (validation, repository call,
success formatting), parametrised by the repository's create operation. -/
def createReminderOp (repoCreate : CreateReminderParams → Except JsError Reminder)
    (args : RemindersToolArgs) : Except JsError String := do
  let validatedArgs ← extractAndValidateArgs args CreateReminderSchema
  let reminder ← repoCreate
    { title := validatedArgs.title, notes := validatedArgs.note, url := validatedArgs.url,
      list := validatedArgs.targetList, dueDate := validatedArgs.dueDate }
  return formatSuccessMessage .created "reminder" reminder.title (reminder.id.getD "")

/-- `handleCreateReminder`: the create pipeline wrapped by `handleAsyncOperation`. -/
def handleCreateReminder (repoCreate : CreateReminderParams → Except JsError Reminder)
    (env : ProcessEnv) (args : RemindersToolArgs) : CallToolResult :=
  handleAsyncOperation (createReminderOp repoCreate args) "create reminder" env

/-- Parameters passed by `handleUpdateReminder` to `reminderRepository.updateReminder`. -/
structure UpdateReminderParams where
  id : String
  newTitle : Option String := none
  notes : Option String := none
  url : Option String := none
  isCompleted : Option Bool := none
  list : Option String := none
  dueDate : Option String := none
deriving DecidableEq

/-- The async body of `handleUpdateReminder`. -/
def updateReminderOp (repoUpdate : UpdateReminderParams → Except JsError Reminder)
    (args : RemindersToolArgs) : Except JsError String := do
  let validatedArgs ← extractAndValidateArgs args UpdateReminderSchema
  let reminder ← repoUpdate
    { id := validatedArgs.id, newTitle := validatedArgs.title, notes := validatedArgs.note,
      url := validatedArgs.url, isCompleted := validatedArgs.completed,
      list := validatedArgs.targetList, dueDate := validatedArgs.dueDate }
  return formatSuccessMessage .updated "reminder" reminder.title (reminder.id.getD "")

/-- `handleUpdateReminder`: the update pipeline wrapped by `handleAsyncOperation`. -/
def handleUpdateReminder (repoUpdate : UpdateReminderParams → Except JsError Reminder)
    (env : ProcessEnv) (args : RemindersToolArgs) : CallToolResult :=
  handleAsyncOperation (updateReminderOp repoUpdate args) "update reminder" env

/-- The async body of `handleDeleteReminder`. -/
def deleteReminderOp (repoDelete : String → Except JsError Unit)
    (args : RemindersToolArgs) : Except JsError String := do
  let validatedArgs ← extractAndValidateArgs args DeleteReminderSchema
  let _ ← repoDelete validatedArgs.id
  return formatDeleteMessage "reminder" validatedArgs.id
    { useQuotes := false, useIdPrefix := true, usePeriod := false }

/-- `handleDeleteReminder`: the delete pipeline wrapped by `handleAsyncOperation`. -/
def handleDeleteReminder (repoDelete : String → Except JsError Unit)
    (env : ProcessEnv) (args : RemindersToolArgs) : CallToolResult :=
  handleAsyncOperation (deleteReminderOp repoDelete args) "delete reminder" env

/-- The async body of `handleReadReminders`: validate, then branch on the raw
(pre-validation) `args.id` being truthy — by-id lookup with the raw id, or
filtered listing from the validated arguments. -/
def readRemindersOp (findById : String → Except JsError Reminder)
    (findAll : ReminderFilters → Except JsError (List Reminder))
    (args : RemindersToolArgs) : Except JsError String := do
  let validatedArgs ← extractAndValidateArgs args ReadRemindersSchema
  if truthyOpt args.id then
    let reminder ← findById (args.id.getD "")
    let markdownLines : List String := ["### Reminder", ""] ++ formatReminderMarkdown reminder
    return joinLines markdownLines
  else
    let reminders ← findAll
      { list := validatedArgs.filterList, showCompleted := validatedArgs.showCompleted,
        search := validatedArgs.search, dueWithin := validatedArgs.dueWithin }
    return formatListMarkdown "Reminders" reminders formatReminderMarkdown
      "No reminders found matching the criteria."

/-- `handleReadReminders`: the read pipeline wrapped by `handleAsyncOperation`. -/
def handleReadReminders (findById : String → Except JsError Reminder)
    (findAll : ReminderFilters → Except JsError (List Reminder))
    (env : ProcessEnv) (args : RemindersToolArgs) : CallToolResult :=
  handleAsyncOperation (readRemindersOp findById findAll args) "read reminders" env

/-- The read handler instantiated with the spec-modelled repository over a
concrete store of reminders. -/
def readRemindersResult (store : List Reminder) (env : ProcessEnv)
    (args : RemindersToolArgs) : CallToolResult :=
  handleReadReminders (findReminderById store) (findReminders store) env args

/-! ## Claim C4 -/

/-- C4: omitting the required field of an operation's schema (create: `title`;
update and delete: `id`) makes validation fail with a `ValidationError` naming
that field, and the handler's final result has `isError = true` with the field
name contained in the text. -/
theorem missing_required_field_rejected (env : ProcessEnv) (args : RemindersToolArgs)
    (repoCreate : CreateReminderParams → Except JsError Reminder)
    (repoUpdate : UpdateReminderParams → Except JsError Reminder)
    (repoDelete : String → Except JsError Unit) :
    (args.title = none →
      CreateReminderSchema (stripAction args) =
        .error (.validationError (requiredFieldMessage "title")) ∧
      (handleCreateReminder repoCreate env args).isError = true ∧
      containsText (firstText (handleCreateReminder repoCreate env args)) "title") ∧
    (args.id = none →
      UpdateReminderSchema (stripAction args) =
        .error (.validationError (requiredFieldMessage "id")) ∧
      (handleUpdateReminder repoUpdate env args).isError = true ∧
      containsText (firstText (handleUpdateReminder repoUpdate env args)) "id") ∧
    (args.id = none →
      DeleteReminderSchema (stripAction args) =
        .error (.validationError (requiredFieldMessage "id")) ∧
      (handleDeleteReminder repoDelete env args).isError = true ∧
      containsText (firstText (handleDeleteReminder repoDelete env args)) "id") := by
  refine ⟨?_, ?_, ?_⟩
  · intro h
    have hschema : CreateReminderSchema (stripAction args) =
        .error (.validationError (requiredFieldMessage "title")) := by
      simp [CreateReminderSchema, stripAction, h]
    have hop : createReminderOp repoCreate args =
        .error (.validationError (requiredFieldMessage "title")) := by
      simp only [createReminderOp, extractAndValidateArgs, validateInput]
      rw [hschema]
      rfl
    refine ⟨hschema, ?_, ?_⟩
    · simp [handleCreateReminder, hop, handleAsyncOperation]
    · simp only [handleCreateReminder, hop, handleAsyncOperation, firstText, createErrorMessage,
        JsError.isValidation, JsError.isInstanceOfError, JsError.instanceMessage,
        List.headD_cons, if_true]
      decide
  · intro h
    have hschema : UpdateReminderSchema (stripAction args) =
        .error (.validationError (requiredFieldMessage "id")) := by
      simp [UpdateReminderSchema, stripAction, h]
    have hop : updateReminderOp repoUpdate args =
        .error (.validationError (requiredFieldMessage "id")) := by
      simp only [updateReminderOp, extractAndValidateArgs, validateInput]
      rw [hschema]
      rfl
    refine ⟨hschema, ?_, ?_⟩
    · simp [handleUpdateReminder, hop, handleAsyncOperation]
    · simp only [handleUpdateReminder, hop, handleAsyncOperation, firstText, createErrorMessage,
        JsError.isValidation, JsError.isInstanceOfError, JsError.instanceMessage,
        List.headD_cons, if_true]
      decide
  · intro h
    have hschema : DeleteReminderSchema (stripAction args) =
        .error (.validationError (requiredFieldMessage "id")) := by
      simp [DeleteReminderSchema, stripAction, h]
    have hop : deleteReminderOp repoDelete args =
        .error (.validationError (requiredFieldMessage "id")) := by
      simp only [deleteReminderOp, extractAndValidateArgs, validateInput]
      rw [hschema]
      rfl
    refine ⟨hschema, ?_, ?_⟩
    · simp [handleDeleteReminder, hop, handleAsyncOperation]
    · simp only [handleDeleteReminder, hop, handleAsyncOperation, firstText, createErrorMessage,
        JsError.isValidation, JsError.isInstanceOfError, JsError.instanceMessage,
        List.headD_cons, if_true]
      decide

/-- Witness for C4: the all-absent request is rejected by all three handlers. -/
theorem missing_required_field_rejected_witness :
    (handleCreateReminder (fun _ => .error .nonErrorThrown) ⟨none, none⟩ {}).isError = true ∧
    (handleUpdateReminder (fun _ => .error .nonErrorThrown) ⟨none, none⟩ {}).isError = true ∧
    (handleDeleteReminder (fun _ => .error .nonErrorThrown) ⟨none, none⟩ {}).isError = true :=
  ⟨((missing_required_field_rejected ⟨none, none⟩ {} (fun _ => .error .nonErrorThrown)
      (fun _ => .error .nonErrorThrown) (fun _ => .error .nonErrorThrown)).1 rfl).2.1,
   ((missing_required_field_rejected ⟨none, none⟩ {} (fun _ => .error .nonErrorThrown)
      (fun _ => .error .nonErrorThrown) (fun _ => .error .nonErrorThrown)).2.1 rfl).2.1,
   ((missing_required_field_rejected ⟨none, none⟩ {} (fun _ => .error .nonErrorThrown)
      (fun _ => .error .nonErrorThrown) (fun _ => .error .nonErrorThrown)).2.2 rfl).2.1⟩

theorem except_ok_bind {ε α β : Type} (a : α) (f : α → Except ε β) :
    (Except.ok a : Except ε α) >>= f = f a := rfl

/-! ## Claim C10 -/

/-- C10: in `handleReadReminders` the branch choice is made on the raw,
pre-validation `args.id` being truthy: an absent or empty-string id routes to
the filter path (a list result built from the validated filter fields), a
truthy id routes to the by-id path with the raw id value passed to the
repository lookup, and in both cases schema validation of the remaining fields
runs first — a validation failure short-circuits either path into an error
envelope. -/
theorem readReminders_raw_id_routing (env : ProcessEnv) (args : RemindersToolArgs)
    (findById : String → Except JsError Reminder)
    (findAll : ReminderFilters → Except JsError (List Reminder)) :
    ((args.id = none ∨ args.id = some "") →
      ∀ v, ReadRemindersSchema (stripAction args) = .ok v →
      handleReadReminders findById findAll env args =
        handleAsyncOperation
          ((findAll { list := v.filterList, showCompleted := v.showCompleted,
                      search := v.search, dueWithin := v.dueWithin }).map
            (fun reminders => formatListMarkdown "Reminders" reminders formatReminderMarkdown
              "No reminders found matching the criteria."))
          "read reminders" env) ∧
    (∀ i, args.id = some i → i ≠ "" →
      ∀ v, ReadRemindersSchema (stripAction args) = .ok v →
      handleReadReminders findById findAll env args =
        handleAsyncOperation
          ((findById i).map
            (fun reminder => joinLines (["### Reminder", ""] ++ formatReminderMarkdown reminder)))
          "read reminders" env) ∧
    (∀ e, ReadRemindersSchema (stripAction args) = .error e →
      handleReadReminders findById findAll env args =
        { content := [{ type := "text", text := createErrorMessage "read reminders" env e }],
          isError := true }) := by
  refine ⟨?_, ?_, ?_⟩
  · intro h v hv
    have hid : truthyOpt args.id = false := by
      rcases h with h | h <;> simp [h, truthyOpt]
    have hop : readRemindersOp findById findAll args =
        (findAll { list := v.filterList, showCompleted := v.showCompleted,
                   search := v.search, dueWithin := v.dueWithin }).map
          (fun reminders => formatListMarkdown "Reminders" reminders formatReminderMarkdown
            "No reminders found matching the criteria.") := by
      simp only [readRemindersOp, extractAndValidateArgs, validateInput]
      rw [hv]
      cases hfa : findAll { list := v.filterList, showCompleted := v.showCompleted,
                            search := v.search, dueWithin := v.dueWithin } <;>
        simp [except_ok_bind, hid, hfa, Except.map]
    simp [handleReadReminders, hop]
  · intro i hi hne v hv
    have htr : truthyOpt (some i) = true := by simp [truthyOpt, hne]
    have hop : readRemindersOp findById findAll args =
        (findById i).map
          (fun reminder => joinLines (["### Reminder", ""] ++ formatReminderMarkdown reminder)) := by
      simp only [readRemindersOp, extractAndValidateArgs, validateInput, hv, except_ok_bind,
        hi, htr, if_true, Option.getD_some]
      cases hfb : findById i <;> simp [hfb, Except.map]
    simp [handleReadReminders, hop]
  · intro e he
    have hop : readRemindersOp findById findAll args = .error e := by
      simp only [readRemindersOp, extractAndValidateArgs, validateInput]
      rw [he]
      rfl
    simp [handleReadReminders, hop, handleAsyncOperation]

/-- Witness for C10: concrete runs of all three branches — empty-string id
(filter path), truthy id (raw-id lookup path), invalid `dueWithin`
(validation rejection despite a truthy id). -/
theorem readReminders_raw_id_routing_witness :
    handleReadReminders (findReminderById []) (findReminders []) ⟨none, none⟩
        { action := some "read", id := some "" } =
      handleAsyncOperation
        ((findReminders [] { list := none, showCompleted := none,
                             search := none, dueWithin := none }).map
          (fun reminders => formatListMarkdown "Reminders" reminders formatReminderMarkdown
            "No reminders found matching the criteria."))
        "read reminders" ⟨none, none⟩ ∧
    handleReadReminders (findReminderById []) (findReminders []) ⟨none, none⟩
        { action := some "read", id := some "ABC123" } =
      handleAsyncOperation
        ((findReminderById [] "ABC123").map
          (fun reminder => joinLines (["### Reminder", ""] ++ formatReminderMarkdown reminder)))
        "read reminders" ⟨none, none⟩ ∧
    handleReadReminders (findReminderById []) (findReminders []) ⟨none, none⟩
        { action := some "read", id := some "ABC123", dueWithin := some "not-a-date" } =
      { content := [{ type := "text",
                      text := createErrorMessage "read reminders" ⟨none, none⟩
                        (.validationError (badFormatMessage "dueWithin")) }],
        isError := true } :=
  ⟨(readReminders_raw_id_routing ⟨none, none⟩ { action := some "read", id := some "" }
      (findReminderById []) (findReminders [])).1 (Or.inr rfl) _ rfl,
   (readReminders_raw_id_routing ⟨none, none⟩ { action := some "read", id := some "ABC123" }
      (findReminderById []) (findReminders [])).2.1 "ABC123" rfl (by decide) _ rfl,
   (readReminders_raw_id_routing ⟨none, none⟩
      { action := some "read", id := some "ABC123", dueWithin := some "not-a-date" }
      (findReminderById []) (findReminders [])).2.2
      (.validationError (badFormatMessage "dueWithin")) rfl⟩

/-! ## Claim C3 -/

/-- C3 counterexample: in production, a read-by-id request whose id matches no
reminder yields `isError = true`, but its text is the generic redacted failure
message — it is not a not-found message (it mentions neither `not found` nor
the requested id), because `NotFoundError` does not bypass the production
redaction gate. -/
theorem readById_miss_redacted_counterexample :
    (readRemindersResult [] ⟨none, none⟩ { action := some "read", id := some "X" }).isError
      = true ∧
    firstText (readRemindersResult [] ⟨none, none⟩ { action := some "read", id := some "X" }) =
      "Failed to read reminders: System error occurred" ∧
    ¬ containsText
        (firstText (readRemindersResult [] ⟨none, none⟩ { action := some "read", id := some "X" }))
        "not found" ∧
    ¬ containsText
        (firstText (readRemindersResult [] ⟨none, none⟩ { action := some "read", id := some "X" }))
        "X" := by
  refine ⟨rfl, rfl, ?_, ?_⟩ <;> decide

/-- C3 (amended): with the spec-modelled repository, a read without a truthy id
whose filters match nothing returns `isError = false` with the designated empty
message, while a read with a truthy id matching no reminder returns
`isError = true` — with the not-found detail in the text in development mode
and the generic failure message in production; the two empty outcomes are never
conflated. -/
theorem readReminders_empty_vs_missing (store : List Reminder) (env : ProcessEnv)
    (args : RemindersToolArgs) (v : ValidatedRead)
    (hv : ReadRemindersSchema (stripAction args) = .ok v) :
    (truthyOpt args.id = false →
      store.filter (matchesFilters { list := v.filterList, showCompleted := v.showCompleted,
                                     search := v.search, dueWithin := v.dueWithin }) = [] →
      readRemindersResult store env args =
        { content := [{ type := "text",
                        text := "### Reminders (Total: 0)\n\nNo reminders found matching the criteria." }],
          isError := false }) ∧
    (∀ i, args.id = some i → i ≠ "" →
      store.find? (fun r => r.id == some i) = none →
      (readRemindersResult store env args).isError = true ∧
      (env.isDev = true →
        containsText (firstText (readRemindersResult store env args))
          ("Reminder not found with ID: " ++ i)) ∧
      (env.isDev = false →
        firstText (readRemindersResult store env args) =
          "Failed to read reminders: System error occurred")) := by
  constructor
  · intro hid hfilter
    have hop : readRemindersOp (findReminderById store) (findReminders store) args =
        .ok "### Reminders (Total: 0)\n\nNo reminders found matching the criteria." := by
      simp only [readRemindersOp, extractAndValidateArgs, validateInput, hv, except_ok_bind,
        hid, Bool.false_eq_true, if_false, findReminders, except_ok_bind, hfilter]
      rfl
    simp [readRemindersResult, handleReadReminders, hop, handleAsyncOperation]
  · intro i hi hne hfind
    have htr : truthyOpt (some i) = true := by simp [truthyOpt, hne]
    have hop : readRemindersOp (findReminderById store) (findReminders store) args =
        .error (.notFoundError ("Reminder not found with ID: " ++ i)) := by
      simp only [readRemindersOp, extractAndValidateArgs, validateInput, hv, except_ok_bind,
        hi, htr, if_true, Option.getD_some, findReminderById, hfind]
      rfl
    refine ⟨?_, ?_, ?_⟩
    · simp [readRemindersResult, handleReadReminders, hop, handleAsyncOperation]
    · intro hdev
      simp only [readRemindersResult, handleReadReminders, hop, handleAsyncOperation,
        firstText, List.headD_cons, createErrorMessage, JsError.isValidation,
        JsError.isInstanceOfError, JsError.instanceMessage, hdev, Bool.false_eq_true,
        if_false, if_true]
      exact ⟨("Failed to " ++ "read reminders" ++ ": ").data, [], by simp⟩
    · intro hdev
      simp only [readRemindersResult, handleReadReminders, hop, handleAsyncOperation,
        firstText, List.headD_cons, createErrorMessage, JsError.isValidation,
        JsError.isInstanceOfError, JsError.instanceMessage, hdev, Bool.false_eq_true,
        if_false]
      rfl

/-- Witness for C3 (amended): an empty store — filter read gives the non-error
empty rendering; by-id read of `X` in development mode gives an error result. -/
theorem readReminders_empty_vs_missing_witness :
    readRemindersResult [] ⟨none, none⟩ { action := some "read" } =
      { content := [{ type := "text",
                      text := "### Reminders (Total: 0)\n\nNo reminders found matching the criteria." }],
        isError := false } ∧
    (readRemindersResult [] ⟨some "development", none⟩
      { action := some "read", id := some "X" }).isError = true :=
  ⟨(readReminders_empty_vs_missing [] ⟨none, none⟩ { action := some "read" } {} rfl).1 rfl rfl,
   ((readReminders_empty_vs_missing [] ⟨some "development", none⟩
      { action := some "read", id := some "X" } {} rfl).2 "X" rfl (by decide) rfl).1⟩

/-! ## Command invocations and the helper boundary (modelled from the spec) -/

/-- A helper invocation: a subcommand plus an ordered, discrete argument list
(spec §3 `CommandInvocation`; never a concatenated shell string). -/
structure CommandInvocation where
  command : String
  arguments : List String
deriving DecidableEq

/-- Value following a flag in a discrete argument list. -/
def argValue : List String → String → Option String
  | flag :: value :: rest, f => if flag == f then some value else argValue (value :: rest) f
  | _, _ => none

/-- Modelled from the spec: the Reminders adapter translates validated create
parameters into the create subcommand with each user datum as its own
argument-array element following its flag (§4.4, §6, §8 scenario). -/
def buildCreateInvocation (p : CreateReminderParams) : CommandInvocation :=
  { command := "create",
    arguments := ["--title", p.title]
      ++ (match p.notes with | some n => ["--notes", n] | none => [])
      ++ (match p.url with | some u => ["--url", u] | none => [])
      ++ (match p.list with | some l => ["--list", l] | none => [])
      ++ (match p.dueDate with | some d => ["--due-date", d] | none => []) }

/-- Modelled from the spec: the helper, invoked with the create subcommand,
creates a reminder from the flag arguments and assigns a store id (§4.4, §6) —
the adapter sees only what is in the argument list. -/
def helperCreate (assignedId : String) (inv : CommandInvocation) : Except JsError Reminder :=
  if inv.command == "create" then
    .ok { title := (argValue inv.arguments "--title").getD "",
          isCompleted := false,
          id := some assignedId,
          notes := argValue inv.arguments "--notes",
          url := argValue inv.arguments "--url",
          list := argValue inv.arguments "--list",
          dueDate := argValue inv.arguments "--due-date" }
  else .error (.helperExecutionError "unknown command")

/-- The repository's create operation factored through the helper invocation. -/
def specRepoCreate (assignedId : String) (p : CreateReminderParams) : Except JsError Reminder :=
  helperCreate assignedId (buildCreateInvocation p)

/-! ## Claim C6 -/

/-- C6: for `create` with title `Buy milk` (and nothing else), validation
passes, the helper invocation is the create subcommand with exactly
`["--title", "Buy milk"]` as discrete arguments, and the success envelope is
non-error with text `Successfully created reminder "Buy milk".` followed by an
ID line. -/
theorem create_buy_milk_scenario (env : ProcessEnv) (assignedId : String) :
    CreateReminderSchema (stripAction { action := some "create", title := some "Buy milk" }) =
      .ok { title := "Buy milk" } ∧
    buildCreateInvocation { title := "Buy milk" } =
      { command := "create", arguments := ["--title", "Buy milk"] } ∧
    handleCreateReminder (specRepoCreate assignedId) env
        { action := some "create", title := some "Buy milk" } =
      { content := [{ type := "text",
                      text := "Successfully created reminder \"Buy milk\".\n- ID: "
                        ++ assignedId }],
        isError := false } := by
  refine ⟨rfl, rfl, ?_⟩
  rfl

/-! ## Binary path validation (modelled from the spec) -/

/-- Captured output of a helper subprocess run. -/
structure HelperOutput where
  stdout : String
  stderr : String
  exitCode : Int
deriving DecidableEq

/-- The ambient filesystem/OS facts the validator consults: symlink resolution,
content hashing, and actual process execution. -/
structure HelperEnv where
  realpath : String → String
  contentHash : String → String
  run : String → CommandInvocation → HelperOutput

/-- Configuration of the trusted helper binary (spec §4.2, §6). -/
structure BinaryConfig where
  binaryPath : String
  allowedDir : String
  expectedHash : Option String
  production : Bool

/-- A path is absolute when it starts with a slash. -/
def isAbsolutePath (s : String) : Bool := prefixChars "/".data s.data

/-- A path lies inside a directory when the directory plus separator is a
prefix of the path. -/
def withinDir (dir path : String) : Bool := prefixChars (dir ++ "/").data path.data

/-- Modelled from the spec: `resolve()` of the binary path validator fails with
`UntrustedBinaryError` when the configured path is not absolute, resolves
(after following any symlink) outside the allow-listed directory, or — in a
production posture — its content hash does not match the pinned value (§4.2). -/
def resolveBinary (henv : HelperEnv) (cfg : BinaryConfig) : Except JsError String :=
  if !isAbsolutePath cfg.binaryPath then
    .error (.untrustedBinaryError "binary path is not absolute")
  else
    let real := henv.realpath cfg.binaryPath
    if !withinDir cfg.allowedDir real then
      .error (.untrustedBinaryError "binary path resolves outside the allowed directory")
    else if cfg.production && (some (henv.contentHash real) != cfg.expectedHash) then
      .error (.untrustedBinaryError "binary content hash mismatch")
    else .ok real

/-- Events of one helper invocation, in occurrence order. -/
inductive HelperEvent where
  | argumentsBuilt
  | processSpawned
deriving DecidableEq

/-- Modelled from the spec: the invocation pipeline resolves and validates the
binary path first; only then is the argument list built and the subprocess
spawned (§4.2, §4.3, §8 scenario). -/
def runCreateThroughHelper (henv : HelperEnv) (cfg : BinaryConfig) (p : CreateReminderParams) :
    Except JsError HelperOutput × List HelperEvent :=
  match resolveBinary henv cfg with
  | .error e => (.error e, [])
  | .ok path =>
      let inv := buildCreateInvocation p
      (.ok (henv.run path inv), [.argumentsBuilt, .processSpawned])

/-! ## Claim C5 -/

/-- C5: when the configured helper path resolves (after following any symlink)
outside the allow-listed directory, the pipeline fails with
`UntrustedBinaryError` and its event trace contains neither an argument-build
nor a spawn event — no subprocess is ever spawned and no argument list built. -/
theorem untrusted_symlink_no_spawn (henv : HelperEnv) (cfg : BinaryConfig)
    (p : CreateReminderParams)
    (houtside : withinDir cfg.allowedDir (henv.realpath cfg.binaryPath) = false) :
    (∃ m, (runCreateThroughHelper henv cfg p).1 = .error (.untrustedBinaryError m)) ∧
    HelperEvent.argumentsBuilt ∉ (runCreateThroughHelper henv cfg p).2 ∧
    HelperEvent.processSpawned ∉ (runCreateThroughHelper henv cfg p).2 := by
  have h : resolveBinary henv cfg = .error (.untrustedBinaryError "binary path is not absolute") ∨
      resolveBinary henv cfg =
        .error (.untrustedBinaryError "binary path resolves outside the allowed directory") := by
    by_cases habs : isAbsolutePath cfg.binaryPath
    · right; simp [resolveBinary, habs, houtside]
    · left; simp [resolveBinary, habs]
  rcases h with h | h
  · refine ⟨⟨"binary path is not absolute", ?_⟩, ?_, ?_⟩ <;> simp [runCreateThroughHelper, h]
  · refine ⟨⟨"binary path resolves outside the allowed directory", ?_⟩, ?_, ?_⟩ <;>
      simp [runCreateThroughHelper, h]

/-- Witness for C5: a concrete configuration whose helper path is a symlink
resolving outside the allow-listed directory. -/
theorem untrusted_symlink_no_spawn_witness :
    (∃ m, (runCreateThroughHelper
        ⟨fun _ => "/tmp/evil", fun _ => "h", fun _ _ => ⟨"", "", 0⟩⟩
        ⟨"/usr/local/lib/mcp/helper", "/usr/local/lib/mcp", none, false⟩
        { title := "Buy milk" }).1 = .error (.untrustedBinaryError m)) ∧
    HelperEvent.argumentsBuilt ∉ (runCreateThroughHelper
        ⟨fun _ => "/tmp/evil", fun _ => "h", fun _ _ => ⟨"", "", 0⟩⟩
        ⟨"/usr/local/lib/mcp/helper", "/usr/local/lib/mcp", none, false⟩
        { title := "Buy milk" }).2 ∧
    HelperEvent.processSpawned ∉ (runCreateThroughHelper
        ⟨fun _ => "/tmp/evil", fun _ => "h", fun _ _ => ⟨"", "", 0⟩⟩
        ⟨"/usr/local/lib/mcp/helper", "/usr/local/lib/mcp", none, false⟩
        { title := "Buy milk" }).2 :=
  untrusted_symlink_no_spawn _ _ _ (by decide)
